import Mathlib

/-!
Shallow embedding of the chewingwl input-method session controller
(src/main.rs): the session state machine (InputMethod::update), the
candidate pagination logic of the Popup arms, and the pre-edit emission
helpers (Chewing::preedit, InputMethod::preedit_string, commit_string,
open_popup).  The chewing conversion engine is a dependency outside the
repository; it is represented by the observable values its query methods
return (EngineState) together with an oracle giving the behaviour of
process_keyevent and select (EngineOracle).  Machine integers (usize)
become Nat; Rust's truncating slice/saturating behaviour is noted where
the translation has to pick a value on a panicking path.
-/

namespace ChewingWL

/-- Encoded size in bytes of one code point, as in Rust char::len_utf8. -/
def utf8Len (c : Char) : Nat :=
  if c.toNat < 0x80 then 1
  else if c.toNat < 0x800 then 2
  else if c.toNat < 0x10000 then 3
  else 4

/-- Byte length of a string represented as its list of code points
(str::len in Rust). -/
def utf8ByteLength (s : List Char) : Nat := (s.map utf8Len).sum

/-- Split of a code-point list at a byte offset, as String::split_off does
at a char boundary.  Off a boundary Rust panics; this translation keeps the
offending code point in the suffix — the runs proved below only ever split
on boundaries. -/
def splitOffBytes : List Char → Nat → List Char × List Char
  | s, 0 => ([], s)
  | [], _ => ([], [])
  | c :: cs, n =>
    if utf8Len c ≤ n then
      let p := splitOffBytes cs (n - utf8Len c)
      (c :: p.1, p.2)
    else ([], c :: cs)

/-- Logical keys the controller sends to the engine (the keyboard KeyCode
values used by main.rs); ascii b is map_ascii(char as u8), spaceShift is
map_with_mod(Space, shift). -/
inductive KeyCode
  | down | up | left | right | esc | enter | backspace | space | spaceShift
  | del | tab
  | ascii (b : Nat)
  deriving DecidableEq

/-- Observable state of the external chewing editor: the values returned by
the query methods main.rs uses — display(), cursor(), syllable_buffer(),
all_candidates().unwrap_or_default() and total_page().unwrap(). -/
structure EngineState where
  display : List Char
  cursor : Nat
  syllable : List Char
  candidates : List (List Char)
  totalPage : Nat
  deriving DecidableEq

/-- Behaviour of the external engine: procKey is process_keyevent, and
select i is Editor::select(i) — none models Err (the engine state is then
unchanged), some e models Ok with resulting state e. -/
structure EngineOracle where
  procKey : EngineState → KeyCode → EngineState
  select : EngineState → Nat → Option EngineState

namespace Chewing

/-- Model of Chewing::preedit (main.rs lines 70-75): the engine display is
split at BYTE offset cursor() * 3 — a fixed three-bytes-per-code-point
assumption — and the syllable buffer is inserted there. -/
def preedit (e : EngineState) : List Char :=
  let p := splitOffBytes e.display (e.cursor * 3)
  p.1 ++ e.syllable ++ p.2

end Chewing

/-- Byte cursor the controller sends to the host: every emission site in
main.rs computes self.chewing.editor.cursor() * 3. -/
def cursorByteOffset (e : EngineState) : Nat := e.cursor * 3

/-- Modelled from the spec (section 4.1), for comparison with
cursorByteOffset: the true UTF-8 byte offset of the c-th code point of a
string, with no fixed-width assumption. -/
def specCursorByteOffset (s : List Char) (c : Nat) : Nat :=
  utf8ByteLength (s.take c)

/-- Controller states (the State enumeration in main.rs); popup is the
spec's CandidateSelect and waitingForDone is the spec's AwaitingAck. -/
inductive State
  | preEdit | popup | waitingForDone | passThrough
  deriving DecidableEq

/-- Named keys distinguished by main.rs; every other named key behaves as
the catch-all arm and is collapsed into otherKey. -/
inductive Named
  | backspace | space | enter | escape | delete
  | arrowLeft | arrowRight | arrowDown | arrowUp | tab | shift | otherKey
  deriving DecidableEq

/-- The Key payload of a keyboard event: a named key or a character key
carrying its text. -/
inductive Key
  | named (n : Named)
  | character (cs : List Char)
  deriving DecidableEq

/-- The KeyEvent payload: only its utf8 field is read by main.rs. -/
structure KeyEvent where
  utf8 : Option (List Char)
  deriving DecidableEq

/-- Keyboard modifier state: only the shift field is read by main.rs. -/
structure Modifiers where
  shift : Bool
  deriving DecidableEq

/-- Host actions: the input-method actions (SetPreeditString, Commit,
CommitString), popup visibility requests, and virtual-keyboard forwarding.
Byte cursor positions are kept as Nat (the Rust cast as i32 is lossless at
the sizes involved, and both emitted bounds are equal). -/
inductive Action
  | setPreeditString (s : List Char) (cursorBegin cursorEnd : Nat)
  | commit
  | commitString (s : List Char)
  | showPopup
  | hidePopup
  | forwardPress (ev : KeyEvent)
  | forwardRelease (ev : KeyEvent)
  | forwardModifiers (raw : Nat)
  deriving DecidableEq

/-- The Message enumeration of main.rs; RawModifiers is an opaque payload
modelled as a Nat token. -/
inductive Message
  | activate
  | deactivate
  | keyPressed (ev : KeyEvent) (key : Key) (mods : Modifiers)
  | keyReleased (ev : KeyEvent) (key : Key) (mods : Modifiers)
  | modifiers (m : Modifiers) (raw : Nat)
  | updatePopup (page index : Nat)
  | closePopup
  | done
  deriving DecidableEq

/-- The InputMethod application state (main.rs lines 77-91) together with
the engine state it exclusively owns. -/
structure Session where
  page : Nat
  index : Nat
  engine : EngineState
  state : State
  candidates : List (List Char)
  currentPreedit : List Char
  cursorPosition : Nat
  preeditLen : Nat
  pages : List (List (List Char))
  maxCandidates : Nat
  maxPages : Nat
  popup : Bool
  passthroughMode : Bool
  deriving DecidableEq

namespace InputMethod

/-- Model of InputMethod::preedit_string (main.rs lines 94-108): records the
pre-edit, enters WaitingForDone, and batches SetPreeditString with Commit. -/
def preeditString (s : Session) : Session × List Action :=
  let preedit := Chewing.preedit s.engine
  let pos := cursorByteOffset s.engine
  ({ s with preeditLen := utf8ByteLength preedit
            currentPreedit := preedit
            state := State.waitingForDone
            cursorPosition := pos },
   [Action.setPreeditString preedit pos pos, Action.commit])

/-- Model of InputMethod::commit_string (main.rs lines 110-120): the commit
text is read before the Enter key is fed to the engine. -/
def commitString (O : EngineOracle) (s : Session) : Session × List Action :=
  let out := Chewing.preedit s.engine
  let e1 := O.procKey s.engine KeyCode.enter
  ({ s with state := State.passThrough, engine := e1 },
   [Action.commitString out, Action.commit])

/-- Model of InputMethod::open_popup (main.rs lines 122-143): the pre-edit
is read before the Down key is sent to the engine, the candidate list after;
the popup flag is set with no emptiness check on the candidate list. -/
def openPopup (O : EngineOracle) (s : Session) : Session × List Action :=
  let preedit := Chewing.preedit s.engine
  let e1 := O.procKey s.engine KeyCode.down
  let cands := e1.candidates
  let pos := cursorByteOffset e1
  ({ s with engine := e1
            candidates := cands
            state := State.waitingForDone
            popup := true
            cursorPosition := pos
            index := 0
            page := 0
            pages := [cands.take (min s.maxCandidates cands.length)] },
   [Action.setPreeditString preedit pos pos, Action.commit])

/-- Shared body of the ten digit arms, the Enter arm and Message::ClosePopup
(main.rs lines 282-471, 523-541, 623-641): select is called on the flat
index page * max_candidates + i and its Result is discarded with a wildcard
binding; an Err is assumed to leave the engine state unchanged. -/
def selectCandidate (O : EngineOracle) (s : Session) (i : Nat) :
    Session × List Action :=
  let e1 := (O.select s.engine (s.page * s.maxCandidates + i)).getD s.engine
  let preedit := Chewing.preedit e1
  let pos := cursorByteOffset e1
  ({ s with engine := e1
            currentPreedit := preedit
            state := State.waitingForDone
            popup := false
            cursorPosition := pos },
   [Action.setPreeditString preedit pos pos, Action.commit, Action.hidePopup])

end InputMethod

/-- Digit-key dispatch of the State::Popup arm (main.rs lines 282-471):
characters "1" to "9" select page slots 0 to 8 and "0" selects slot 9; any
other character key is not a shortcut. -/
def digitSlot : List Char → Option Nat
  | ['1'] => some 0
  | ['2'] => some 1
  | ['3'] => some 2
  | ['4'] => some 3
  | ['5'] => some 4
  | ['6'] => some 5
  | ['7'] => some 6
  | ['8'] => some 7
  | ['9'] => some 8
  | ['0'] => some 9
  | _ => none

/-- One displayed page in the ArrowRight recomputation (main.rs lines
509-516): the slice candidates[pidx*K .. min((pidx+1)*K, len)].  The Rust
slice panics when its lower bound exceeds its upper bound; this translation
then yields an empty page — the runs proved below stay in range. -/
def pageSlice (cands : List (List Char)) (K pidx : Nat) : List (List Char) :=
  (cands.drop (pidx * K)).take (min ((pidx + 1) * K) cands.length - pidx * K)

/-- One dispatch of InputMethod::update (main.rs lines 197-643): the
resulting session and the batch of host actions (Command::none() is the
empty batch).  The usize subtraction min(len, max_candidates) - 1 of the
ArrowDown arm becomes truncating Nat subtraction; the underflow it hides is
the subject of the C6 theorems below. -/
def step (O : EngineOracle) (s : Session) (m : Message) :
    Session × List Action :=
  match m with
  | Message.activate => ({ s with state := State.passThrough }, [])
  | Message.deactivate =>
    ({ s with engine := O.procKey s.engine KeyCode.esc
              state := State.passThrough },
     [Action.hidePopup])
  | Message.keyPressed ev key mods =>
    match s.state with
    | State.preEdit =>
      match key with
      | Key.named Named.backspace =>
        InputMethod.preeditString
          { s with engine := O.procKey s.engine KeyCode.backspace }
      | Key.named Named.space =>
        if mods.shift then
          InputMethod.preeditString
            { s with engine := O.procKey s.engine KeyCode.spaceShift }
        else
          InputMethod.preeditString
            { s with engine := O.procKey s.engine KeyCode.space }
      | Key.named Named.enter => InputMethod.commitString O s
      | Key.named Named.escape =>
        InputMethod.preeditString
          { s with engine := O.procKey s.engine KeyCode.esc }
      | Key.named Named.delete =>
        InputMethod.preeditString
          { s with engine := O.procKey s.engine KeyCode.del }
      | Key.named Named.arrowLeft =>
        InputMethod.preeditString
          { s with engine := O.procKey s.engine KeyCode.left }
      | Key.named Named.arrowRight =>
        InputMethod.preeditString
          { s with engine := O.procKey s.engine KeyCode.right }
      | Key.named Named.arrowDown => InputMethod.openPopup O s
      | Key.named Named.arrowUp =>
        InputMethod.preeditString
          { s with engine := O.procKey s.engine KeyCode.up }
      | Key.named Named.tab =>
        InputMethod.preeditString
          { s with engine := O.procKey s.engine KeyCode.tab }
      | Key.named Named.shift | Key.named Named.otherKey | Key.character _ =>
        match ev.utf8.bind List.getLast? with
        | some c =>
          InputMethod.preeditString
            { s with engine := O.procKey s.engine (KeyCode.ascii (c.toNat % 256)) }
        | none => (s, [])
    | State.popup =>
      match key with
      | Key.character cs =>
        match digitSlot cs with
        | some i => InputMethod.selectCandidate O s i
        | none => (s, [])
      | Key.named Named.arrowDown =>
        if s.index < min s.candidates.length s.maxCandidates - 1 then
          ({ s with index := s.index + 1 }, [])
        else if s.index = min s.candidates.length s.maxCandidates - 1 then
          let e1 := O.procKey s.engine KeyCode.down
          let cands := e1.candidates
          ({ s with engine := e1
                    candidates := cands
                    index := 0
                    page := 0
                    pages := [cands.take (min s.maxCandidates cands.length)] },
           [])
        else (s, [])
      | Key.named Named.arrowUp =>
        if s.index > 0 then ({ s with index := s.index - 1 }, []) else (s, [])
      | Key.named Named.arrowLeft =>
        if s.page > 0 then ({ s with page := s.page - 1 }, []) else (s, [])
      | Key.named Named.arrowRight =>
        let numPages := s.engine.totalPage
        if numPages > 1 ∧ s.page < numPages - 1 then
          let pagesIndex := s.page / (s.maxPages - 1)
          let minPages := min numPages s.maxPages
          ({ s with pages :=
                      (List.range' (pagesIndex * minPages)
                          (pagesIndex + minPages - pagesIndex * minPages)).map
                        (pageSlice s.candidates s.maxCandidates)
                    page := s.page + 1 },
           [])
        else (s, [])
      | Key.named Named.enter => InputMethod.selectCandidate O s s.index
      | Key.named Named.escape =>
        let e1 := O.procKey s.engine KeyCode.esc
        let pos := cursorByteOffset e1
        ({ s with engine := e1
                  state := State.preEdit
                  popup := false
                  cursorPosition := pos },
         [Action.setPreeditString (Chewing.preedit e1) pos pos, Action.commit,
          Action.hidePopup])
      | Key.named Named.backspace | Key.named Named.space
      | Key.named Named.delete | Key.named Named.tab
      | Key.named Named.shift | Key.named Named.otherKey => (s, [])
    | State.waitingForDone => (s, [])
    | State.passThrough =>
      if s.passthroughMode then
        if key = Key.named Named.shift then
          ({ s with passthroughMode := !s.passthroughMode }, [])
        else (s, [Action.forwardPress ev])
      else if key = Key.named Named.shift then
        ({ s with passthroughMode := !s.passthroughMode }, [])
      else
        match ev.utf8.bind List.getLast? with
        | some c =>
          let e1 := O.procKey s.engine (KeyCode.ascii (c.toNat % 256))
          if Chewing.preedit e1 = [] then
            ({ s with engine := e1, passthroughMode := true },
             [Action.forwardPress ev])
          else InputMethod.preeditString { s with engine := e1 }
        | none => (s, [Action.forwardPress ev])
  | Message.keyReleased ev _key _mods =>
    match s.state with
    | State.passThrough => (s, [Action.forwardRelease ev])
    | State.preEdit | State.popup | State.waitingForDone => (s, [])
  | Message.modifiers _m raw => (s, [Action.forwardModifiers raw])
  | Message.updatePopup page index =>
    ({ s with page := page, index := index }, [])
  | Message.closePopup => InputMethod.selectCandidate O s s.index
  | Message.done =>
    match s.state with
    | State.waitingForDone =>
      if s.popup then ({ s with state := State.popup }, [Action.showPopup])
      else if s.currentPreedit ≠ [] then
        ({ s with state := State.preEdit }, [])
      else ({ s with state := State.passThrough }, [])
    | State.preEdit | State.popup | State.passThrough => (s, [])

/-- State built by InputMethod::new (main.rs lines 172-191); the engine
construction is performed by the external library, so the initial engine
state is a parameter. -/
def InputMethod.new (e : EngineState) : Session :=
  { page := 0, index := 0, engine := e, state := State.passThrough,
    candidates := [], currentPreedit := [], cursorPosition := 0,
    preeditLen := 0, pages := [], maxCandidates := 10, maxPages := 4,
    popup := false, passthroughMode := false }

/-- Fold of the update dispatch over a message sequence, keeping the
session. -/
def run (O : EngineOracle) : Session → List Message → Session
  | s, [] => s
  | s, m :: ms => run O (step O s m).1 ms

/-- Holds of an action batch when every SetPreeditString in it is
immediately followed by a Commit. -/
def setPreeditPaired : List Action → Bool
  | [] => true
  | Action.setPreeditString _ _ _ :: rest =>
    match rest with
    | Action.commit :: _ => setPreeditPaired rest
    | _ => false
  | _ :: rest => setPreeditPaired rest

/-! Concrete fixtures used by the closed theorems and witnesses below. -/

/-- An engine with nothing composed yet. -/
def engine0 : EngineState := ⟨[], 0, [], [], 0⟩

/-- An oracle whose process_keyevent leaves the engine unchanged and whose
select always returns Err. -/
def idOracle : EngineOracle := ⟨fun e _ => e, fun _ _ => none⟩

/-- An oracle for the empty-candidate run: a printable key starts a
composition, and the Down key yields an empty all_candidates result. -/
def emptyCandOracle : EngineOracle where
  procKey e k :=
    match k with
    | KeyCode.ascii _ => { e with display := ['ㄅ'] }
    | KeyCode.down => { e with candidates := [] }
    | _ => e
  select _ _ := none

/-- A key event with no utf8 payload. -/
def ev0 : KeyEvent := ⟨none⟩

/-- No modifier held. -/
def mods0 : Modifiers := ⟨false⟩

/-- An ArrowDown key press. -/
def mDown : Message := Message.keyPressed ev0 (Key.named Named.arrowDown) mods0

/-- An ArrowRight key press. -/
def mRight : Message := Message.keyPressed ev0 (Key.named Named.arrowRight) mods0

/-- A printable key press carrying the character x. -/
def mCharX : Message := Message.keyPressed ⟨some ['x']⟩ (Key.character ['x']) mods0

/-- Twenty-three one-character candidates. -/
def cands23 : List (List Char) := (List.range 23).map (fun n => [Char.ofNat (65 + n)])

/-- A CandidateSelect session over the 23-candidate list with page capacity
10 (pages of lengths 10, 10, 3) on page 0, in-page index 0; the engine
reports 3 pages. -/
def scenarioA : Session :=
  { InputMethod.new { engine0 with candidates := cands23, totalPage := 3 } with
      state := State.popup, candidates := cands23, popup := true,
      pages := [cands23.take 10] }

/-- An engine whose display mixes one-byte and three-byte code points, with
the code-point cursor at 1. -/
def engineMixed : EngineState := ⟨['a', 'a', 'a', 'ㄅ'], 1, [], [], 0⟩

/-- A CandidateSelect session with two candidates on one page. -/
def popupSession : Session :=
  { InputMethod.new { engine0 with candidates := [['甲'], ['乙']] } with
      state := State.popup, candidates := [['甲'], ['乙']], popup := true,
      pages := [[['甲'], ['乙']]] }

/-- A CandidateSelect session with one candidate but in-page index 5. -/
def tinyPopup : Session :=
  { InputMethod.new { engine0 with candidates := [['甲']] } with
      state := State.popup, candidates := [['甲']], index := 5, popup := true }

/-- A pass-through session with the force pass-through latch off. -/
def ptSession : Session := InputMethod.new engine0

/-- An AwaitingAck session with popup-intent flagged. -/
def doneSession : Session :=
  { InputMethod.new engine0 with state := State.waitingForDone, popup := true }

/-! The claim theorems. -/

/-- C1 (evaluation at the failing input): on the pre-edit string aaaㄅ with
code-point cursor 1, the controller emits byte offset cursor * 3 = 3, while
the true UTF-8 byte offset of code point 1 is 1 — the byte cursor is NOT
computed by true UTF-8 transcoding; it assumes three bytes per code point. -/
theorem cursor_offset_fixed_width_divergence :
    Chewing.preedit engineMixed = ['a', 'a', 'a', 'ㄅ'] ∧
    cursorByteOffset engineMixed = 3 ∧
    specCursorByteOffset (Chewing.preedit engineMixed) 1 = 1 ∧
    (InputMethod.preeditString (InputMethod.new engineMixed)).2 =
      [Action.setPreeditString ['a', 'a', 'a', 'ㄅ'] 3 3, Action.commit] ∧
    (3 : Nat) ≠ 1 := by
  refine ⟨rfl, rfl, rfl, rfl, by decide⟩

/-- C2 (evaluation at the failing input): starting from the initial session,
a printable key, the host done signal, ArrowDown with an engine returning no
candidates, and a second done signal leave the machine in CandidateSelect
with an EMPTY candidate list: open_popup performs no emptiness check and the
mode transition is not rejected. -/
theorem popup_entered_with_empty_candidates :
    (run emptyCandOracle (InputMethod.new engine0)
        [mCharX, Message.done, mDown, Message.done]).state = State.popup ∧
    (run emptyCandOracle (InputMethod.new engine0)
        [mCharX, Message.done, mDown, Message.done]).candidates = [] := by
  refine ⟨rfl, rfl⟩

/-- C3 counterexample: in CandidateSelect with a failing select, pressing
the shortcut digit 1 still moves the machine out of CandidateSelect (to
AwaitingAck), contradicting the claim that a failed select leaves the
machine in CandidateSelect. -/
theorem select_error_leaves_popup_counterexample :
    (step idOracle popupSession
        (Message.keyPressed ev0 (Key.character ['1']) mods0)).1.state =
      State.waitingForDone ∧
    State.waitingForDone ≠ State.popup := by
  refine ⟨rfl, by decide⟩

/-- C3 amended: the select Result is discarded; when select fails the engine
state is left unchanged, but the session still transitions to AwaitingAck,
clears the popup flag, and emits the SetPreedit/Commit/HidePopup batch
computed from the unchanged engine state. -/
theorem select_error_still_transitions (O : EngineOracle) (s : Session)
    (ev : KeyEvent) (mods : Modifiers) (i : Nat) (cs : List Char)
    (hst : s.state = State.popup) (hd : digitSlot cs = some i)
    (hsel : O.select s.engine (s.page * s.maxCandidates + i) = none) :
    (step O s (Message.keyPressed ev (Key.character cs) mods)).1.engine = s.engine ∧
    (step O s (Message.keyPressed ev (Key.character cs) mods)).1.state =
      State.waitingForDone ∧
    (step O s (Message.keyPressed ev (Key.character cs) mods)).1.popup = false ∧
    (step O s (Message.keyPressed ev (Key.character cs) mods)).2 =
      [Action.setPreeditString (Chewing.preedit s.engine)
          (cursorByteOffset s.engine) (cursorByteOffset s.engine),
       Action.commit, Action.hidePopup] := by
  simp [step, hst, hd, InputMethod.selectCandidate, hsel]

/-- C3 witness: the amended theorem applied to a concrete CandidateSelect
session whose oracle always fails select. -/
theorem select_error_still_transitions_witness :
    (step idOracle popupSession
        (Message.keyPressed ev0 (Key.character ['1']) mods0)).1.engine =
      popupSession.engine ∧
    (step idOracle popupSession
        (Message.keyPressed ev0 (Key.character ['1']) mods0)).1.state =
      State.waitingForDone ∧
    (step idOracle popupSession
        (Message.keyPressed ev0 (Key.character ['1']) mods0)).1.popup = false ∧
    (step idOracle popupSession
        (Message.keyPressed ev0 (Key.character ['1']) mods0)).2 =
      [Action.setPreeditString (Chewing.preedit popupSession.engine)
          (cursorByteOffset popupSession.engine)
          (cursorByteOffset popupSession.engine),
       Action.commit, Action.hidePopup] :=
  select_error_still_transitions idOracle popupSession ev0 mods0 0 ['1']
    rfl rfl rfl

/-- C4 (evaluation at the failing input): over 23 candidates with page
capacity 10 and 3 engine pages, two ArrowRight presses from page 0 land on
page 2 (whose page holds 3 items), but three ArrowDown presses from in-page
index 0 reach in-page index 3: the bound used is min(23, 10) - 1 = 9
computed from the whole candidate list, so the in-page index moves past the
short last page instead of clamping at 2. -/
theorem scenarioA_move_down_not_clamped :
    (run idOracle scenarioA [mRight, mRight, mDown, mDown, mDown]).page = 2 ∧
    (run idOracle scenarioA [mRight, mRight]).pages.map List.length =
      [10, 10, 3] ∧
    (run idOracle scenarioA [mRight, mRight, mDown, mDown, mDown]).index = 3 ∧
    (3 : Nat) > 2 := by
  refine ⟨rfl, by decide, rfl, by decide⟩

/-- C5 counterexample: from PassThrough with the latch off, a single shift
key PRESS (no release involved) already flips the force pass-through latch
to true, and a shift key release leaves the latch unchanged — the toggle is
not performed on key-release and no between-press tracking exists. -/
theorem shift_toggle_on_press_counterexample :
    (step idOracle ptSession
        (Message.keyPressed ev0 (Key.named Named.shift) mods0)).1.passthroughMode
      = true ∧
    (step idOracle ptSession
        (Message.keyReleased ev0 (Key.named Named.shift) mods0)).1.passthroughMode
      = false := by
  refine ⟨rfl, rfl⟩

/-- C5 amended: in PassThrough the shift key unconditionally flips the force
pass-through latch on its key PRESS (with no action emitted), regardless of
any keys pressed before; a key release in PassThrough leaves the session
unchanged and merely forwards the raw event. -/
theorem shift_press_toggles_passthrough (O : EngineOracle) (s : Session)
    (ev : KeyEvent) (mods : Modifiers) (k : Key)
    (h : s.state = State.passThrough) :
    (step O s (Message.keyPressed ev (Key.named Named.shift) mods)).1.passthroughMode
      = !s.passthroughMode ∧
    (step O s (Message.keyPressed ev (Key.named Named.shift) mods)).2 = [] ∧
    (step O s (Message.keyReleased ev k mods)).1 = s ∧
    (step O s (Message.keyReleased ev k mods)).2 = [Action.forwardRelease ev] := by
  refine ⟨?_, ?_, ?_, ?_⟩ <;> cases hm : s.passthroughMode <;> simp [step, h, hm]

/-- C5 witness: the amended theorem at the concrete pass-through session. -/
theorem shift_press_toggles_passthrough_witness :
    (step idOracle ptSession
        (Message.keyPressed ev0 (Key.named Named.shift) mods0)).1.passthroughMode
      = !ptSession.passthroughMode ∧
    (step idOracle ptSession
        (Message.keyPressed ev0 (Key.named Named.shift) mods0)).2 = [] ∧
    (step idOracle ptSession
        (Message.keyReleased ev0 (Key.named Named.shift) mods0)).1 = ptSession ∧
    (step idOracle ptSession
        (Message.keyReleased ev0 (Key.named Named.shift) mods0)).2 =
      [Action.forwardRelease ev0] :=
  shift_press_toggles_passthrough idOracle ptSession ev0 mods0
    (Key.named Named.shift) rfl

/-- C6 counterexample: non-emptiness of the candidate list alone does not
bound the resulting in-page index: with one candidate and in-page index 5,
the ArrowDown arm leaves the index at 5, which is not strictly below
min(1, 10) = 1 — the stated conclusion needs the in-page-index invariant as
an extra precondition. -/
theorem arrow_down_bound_counterexample :
    tinyPopup.candidates ≠ [] ∧
    (step idOracle tinyPopup mDown).1.index = 5 ∧
    ¬ ((step idOracle tinyPopup mDown).1.index <
        min (step idOracle tinyPopup mDown).1.candidates.length
          (step idOracle tinyPopup mDown).1.maxCandidates) := by
  refine ⟨by decide, rfl, by decide⟩

/-- C6 amended: in CandidateSelect, when the candidate list is non-empty,
the page capacity is positive (10 in the program), the in-page index
satisfies the invariant index < min(len, capacity), and an engine-refreshed
candidate batch is non-empty, the subtraction min(len, capacity) - 1 of the
ArrowDown arm never underflows (its minuend is at least 1) and the resulting
in-page index stays strictly below min over the resulting candidate list. -/
theorem arrow_down_no_underflow_and_bounded (O : EngineOracle) (s : Session)
    (ev : KeyEvent) (mods : Modifiers)
    (hst : s.state = State.popup)
    (hne : s.candidates ≠ [])
    (hcap : 0 < s.maxCandidates)
    (hinv : s.index < min s.candidates.length s.maxCandidates)
    (href : (O.procKey s.engine KeyCode.down).candidates ≠ []) :
    1 ≤ min s.candidates.length s.maxCandidates ∧
    (step O s (Message.keyPressed ev (Key.named Named.arrowDown) mods)).1.index <
      min (step O s
            (Message.keyPressed ev (Key.named Named.arrowDown) mods)).1.candidates.length
        (step O s
            (Message.keyPressed ev (Key.named Named.arrowDown) mods)).1.maxCandidates := by
  have hlen : 0 < s.candidates.length := List.length_pos.mpr hne
  have hb : 1 ≤ min s.candidates.length s.maxCandidates := by omega
  refine ⟨hb, ?_⟩
  by_cases h1 : s.index < min s.candidates.length s.maxCandidates - 1
  · simp only [step, hst, if_pos h1]
    omega
  · have h2 : s.index = min s.candidates.length s.maxCandidates - 1 := by omega
    have hlen2 : 0 < (O.procKey s.engine KeyCode.down).candidates.length :=
      List.length_pos.mpr href
    simp only [step, hst, if_neg h1, if_pos h2]
    omega

/-- C6 witness: the amended theorem at the concrete two-candidate session
whose oracle leaves the engine (and its non-empty candidates) unchanged. -/
theorem arrow_down_no_underflow_and_bounded_witness :
    1 ≤ min popupSession.candidates.length popupSession.maxCandidates ∧
    (step idOracle popupSession mDown).1.index <
      min (step idOracle popupSession mDown).1.candidates.length
        (step idOracle popupSession mDown).1.maxCandidates :=
  arrow_down_no_underflow_and_bounded idOracle popupSession ev0 mods0
    rfl (by decide) (by decide) (by decide) (by decide)

/-- C7: when the host done signal arrives in AwaitingAck, the machine goes
to CandidateSelect and emits exactly the one-element ShowPopup batch when
popup-intent is flagged; otherwise to PreEdit when the recorded pre-edit is
non-empty, and to PassThrough when it is empty, each with no actions. -/
theorem done_transition (O : EngineOracle) (s : Session)
    (h : s.state = State.waitingForDone) :
    (s.popup = true →
      (step O s Message.done).1.state = State.popup ∧
      (step O s Message.done).2 = [Action.showPopup]) ∧
    (s.popup = false → s.currentPreedit ≠ [] →
      (step O s Message.done).1.state = State.preEdit ∧
      (step O s Message.done).2 = []) ∧
    (s.popup = false → s.currentPreedit = [] →
      (step O s Message.done).1.state = State.passThrough ∧
      (step O s Message.done).2 = []) := by
  refine ⟨fun hp => ?_, fun hp hpre => ?_, fun hp hpre => ?_⟩
  · simp [step, h, hp]
  · simp [step, h, hp, hpre]
  · simp [step, h, hp, hpre]

/-- C7 witness: the done transition at a concrete AwaitingAck session with
popup-intent flagged yields CandidateSelect and the single ShowPopup. -/
theorem done_transition_witness :
    (step idOracle doneSession Message.done).1.state = State.popup ∧
    (step idOracle doneSession Message.done).2 = [Action.showPopup] :=
  (done_transition idOracle doneSession rfl).1 rfl

/-- C8: in AwaitingAck every key press and key release is dropped: the
session is unchanged and no action is emitted. -/
theorem awaiting_ack_ignores_keys (O : EngineOracle) (s : Session)
    (ev : KeyEvent) (key : Key) (mods : Modifiers)
    (h : s.state = State.waitingForDone) :
    step O s (Message.keyPressed ev key mods) = (s, []) ∧
    step O s (Message.keyReleased ev key mods) = (s, []) := by
  constructor <;> simp [step, h]

/-- C8 witness: key press and release at a concrete AwaitingAck session. -/
theorem awaiting_ack_ignores_keys_witness :
    step idOracle doneSession (Message.keyPressed ev0 (Key.named Named.enter) mods0)
      = (doneSession, []) ∧
    step idOracle doneSession (Message.keyReleased ev0 (Key.named Named.enter) mods0)
      = (doneSession, []) :=
  awaiting_ack_ignores_keys idOracle doneSession ev0 (Key.named Named.enter)
    mods0 rfl

/-- Helper: the preedit_string batch is SetPreeditString then Commit. -/
theorem preeditString_paired (s : Session) :
    setPreeditPaired (InputMethod.preeditString s).2 = true := rfl

/-- Helper: the commit_string batch holds no SetPreeditString. -/
theorem commitString_paired (O : EngineOracle) (s : Session) :
    setPreeditPaired (InputMethod.commitString O s).2 = true := rfl

/-- Helper: the open_popup batch is SetPreeditString then Commit. -/
theorem openPopup_paired (O : EngineOracle) (s : Session) :
    setPreeditPaired (InputMethod.openPopup O s).2 = true := rfl

/-- Helper: the selection batch is SetPreeditString, Commit, HidePopup. -/
theorem selectCandidate_paired (O : EngineOracle) (s : Session) (i : Nat) :
    setPreeditPaired (InputMethod.selectCandidate O s i).2 = true := rfl

/-- C9: in every batch of host actions any dispatch of the state machine
emits, each SetPreeditString is immediately followed by a Commit in the same
batch. -/
theorem setPreedit_always_paired (O : EngineOracle) (s : Session)
    (m : Message) : setPreeditPaired (step O s m).2 = true := by
  obtain ⟨pg, ix, e, st, cands, cpre, cpos, plen, pgs, maxC, maxP, pp, ptm⟩ := s
  cases m with
  | activate => rfl
  | deactivate => rfl
  | modifiers _ _ => rfl
  | updatePopup _ _ => rfl
  | closePopup => exact selectCandidate_paired _ _ _
  | done =>
    cases st <;>
      first
        | rfl
        | (simp only [step]
           split <;> [rfl; skip]
           split <;> rfl)
  | keyReleased ev key mods => cases st <;> rfl
  | keyPressed ev key mods =>
    cases st with
    | waitingForDone => rfl
    | preEdit =>
      rcases key with n | cs
      · cases n <;>
          first
            | exact commitString_paired _ _
            | exact openPopup_paired _ _
            | (simp only [step]
               split <;> exact preeditString_paired _)
            | (simp only [step]
               rcases ev.utf8.bind List.getLast? with _ | c <;> rfl)
      · simp only [step]
        rcases ev.utf8.bind List.getLast? with _ | c
        · rfl
        · exact preeditString_paired _
    | popup =>
      rcases key with n | cs
      · cases n <;>
          first
            | rfl
            | exact selectCandidate_paired _ _ _
            | (simp only [step]
               split <;> first | rfl | (split <;> rfl))
      · simp only [step]
        rcases digitSlot cs with _ | i
        · rfl
        · exact selectCandidate_paired _ _ _
    | passThrough =>
      simp only [step]
      repeat' split
      all_goals rfl

/-- C10: digits 1 to 9 denote page slots 0 to 8 and the digit 0 denotes
slot 9; for every shortcut slot i the flat index handed to the engine select
is page * max_candidates + i (the resulting engine state is exactly what
select yields on that index, with Err leaving it unchanged); and every flat
index below the candidate count is a valid position of the flat list. -/
theorem select_index_round_trip (O : EngineOracle) (s : Session)
    (ev : KeyEvent) (mods : Modifiers) (h : s.state = State.popup) :
    (digitSlot ['1'] = some 0 ∧ digitSlot ['2'] = some 1 ∧
     digitSlot ['3'] = some 2 ∧ digitSlot ['4'] = some 3 ∧
     digitSlot ['5'] = some 4 ∧ digitSlot ['6'] = some 5 ∧
     digitSlot ['7'] = some 6 ∧ digitSlot ['8'] = some 7 ∧
     digitSlot ['9'] = some 8 ∧ digitSlot ['0'] = some 9) ∧
    (∀ (cs : List Char) (i : Nat), digitSlot cs = some i →
      (step O s (Message.keyPressed ev (Key.character cs) mods)).1.engine =
        (O.select s.engine (s.page * s.maxCandidates + i)).getD s.engine) ∧
    (∀ p i : Nat, p * s.maxCandidates + i < s.candidates.length →
      ∃ c, s.candidates.get? (p * s.maxCandidates + i) = some c) := by
  refine ⟨⟨rfl, rfl, rfl, rfl, rfl, rfl, rfl, rfl, rfl, rfl⟩, ?_, ?_⟩
  · intro cs i hd
    simp [step, h, hd, InputMethod.selectCandidate]
  · intro p i hpi
    exact ⟨_, List.get?_eq_get hpi⟩

/-- C10 witness: in the concrete CandidateSelect session, the digit 7 hands
flat index page * 10 + 6 to select. -/
theorem select_index_round_trip_witness :
    (step idOracle popupSession
        (Message.keyPressed ev0 (Key.character ['7']) mods0)).1.engine =
      (idOracle.select popupSession.engine
        (popupSession.page * popupSession.maxCandidates + 6)).getD
        popupSession.engine :=
  (select_index_round_trip idOracle popupSession ev0 mods0 rfl).2.1 ['7'] 6 rfl

end ChewingWL
